import Mathlib

/-!
Verification development for the typescript-scratchpad documentation corpus.

The repository is a collection of markdown notes about TypeScript plus one
Webpack configuration file.  The embedding below transcribes the pieces of
the corpus that the specification talks about: each configuration example is
flattened into a list of key-path / leaf-value entries, the relevant prose
lines are embedded as strings, and the file inventory is a list of records.
Every definition carries a comment naming the source file and lines it was
transcribed from, so it can be diffed against the source.
-/

/-- Boolean test that the first character list is a prefix of the second. -/
def isPrefixCL : List Char → List Char → Bool
  | [], _ => true
  | _ :: _, [] => false
  | a :: as, b :: bs => a == b && isPrefixCL as bs

/-- Boolean test that the pattern occurs as a contiguous sublist of the text. -/
def occursCL (pat : List Char) : List Char → Bool
  | [] => isPrefixCL pat []
  | b :: bs => isPrefixCL pat (b :: bs) || occursCL pat bs

/-- Index of the first occurrence of the pattern in the text, if any. -/
def firstIdxCL (pat : List Char) : List Char → Option Nat
  | [] => if isPrefixCL pat [] then some 0 else none
  | b :: bs =>
      if isPrefixCL pat (b :: bs) then some 0
      else (firstIdxCL pat bs).map (fun n => n + 1)

/-- String-level substring occurrence test. -/
def occursS (pat s : String) : Bool := occursCL pat.toList s.toList

/-- Both patterns occur in the text and the first occurrence of the first
pattern lies strictly before the first occurrence of the second. -/
def occursBefore (a b s : String) : Bool :=
  match firstIdxCL a.toList s.toList, firstIdxCL b.toList s.toList with
  | some i, some j => decide (i < j)
  | _, _ => false

/-- String-level suffix test, via reversal. -/
def endsWithS (pat s : String) : Bool :=
  isPrefixCL pat.toList.reverse s.toList.reverse

/-- Leaf values occurring in the configuration examples of the corpus.
A `regex` leaf records the source text of a JavaScript regular expression
literal; a `pathResolve` leaf records a call `path.resolve(dir, sub)` from
src/polyfills/webpack.config.js line 35. -/
inductive JsLeaf where
  | str : String → JsLeaf
  | bool : Bool → JsLeaf
  | strs : List String → JsLeaf
  | regex : String → JsLeaf
  | pathResolve : String → String → JsLeaf
deriving DecidableEq

/-- A configuration example flattened to entries: the key path from the root
of the object (array positions written as decimal strings) paired with the
leaf value found there. -/
abbrev ConfigEntry : Type := List String × JsLeaf

/-- A configuration example together with the source document it appears in. -/
structure ConfigExample where
  doc : String
  entries : List ConfigEntry
deriving DecidableEq

/-- Leaf value stored at an exact key path of a flattened configuration. -/
def entryAt (c : List ConfigEntry) (p : List String) : Option JsLeaf :=
  (c.find? (fun e => e.1 == p)).map (fun e => e.2)

/-- The flattened configuration has some entry whose path starts at the
given top-level key. -/
def hasTopKey (c : List ConfigEntry) (k : String) : Bool :=
  c.any (fun e => e.1.head? == some k)

/-- The field name appears somewhere on a key path of the configuration. -/
def fieldNamed (f : String) (c : List ConfigEntry) : Bool :=
  c.any (fun e => e.1.contains f)

/-- Transcription of the object exported by src/polyfills/webpack.config.js,
lines 3 to 37, flattened to key-path entries.  The two regular expression
literals on lines 10 and 11 are recorded as `regex` leaves holding their
source text, and `path.resolve(__dirname, 'dist')` on line 35 is recorded as
a `pathResolve` leaf. -/
def webpackConfigEntries : List ConfigEntry :=
  [ (["entry"], .str "./src/index.ts"),
    (["devtool"], .str "inline-source-map"),
    (["mode"], .str "development"),
    (["module", "rules", "0", "test"], .regex "\\.ts$"),
    (["module", "rules", "0", "exclude"], .regex "node_modules"),
    (["module", "rules", "0", "use", "loader"], .str "babel-loader"),
    (["module", "rules", "0", "use", "options", "presets", "0", "0"],
      .str "@babel/preset-env"),
    (["module", "rules", "0", "use", "options", "presets", "0", "1", "useBuiltIns"],
      .str "usage"),
    (["module", "rules", "0", "use", "options", "presets", "0", "1", "corejs"],
      .str "3.6"),
    (["module", "rules", "0", "use", "options", "presets", "1"],
      .str "@babel/preset-typescript"),
    (["resolve", "extensions"], .strs [".ts", ".js"]),
    (["output", "filename"], .str "bundle.js"),
    (["output", "path"], .pathResolve "__dirname" "dist") ]

/-- Transcription of the tsconfig sample of src/tsconfig.md, lines 5 to 19. -/
def tsconfigMdSampleEntries : List ConfigEntry :=
  [ (["compilerOptions", "lib"], .strs ["es2015"]),
    (["compilerOptions", "module"], .str "commonjs"),
    (["compilerOptions", "outDir"], .str "dist"),
    (["compilerOptions", "sourceMap"], .bool true),
    (["compilerOptions", "strict"], .bool true),
    (["compilerOptions", "target"], .str "es2015"),
    (["include"], .strs ["src"]) ]

/-- Transcription of the tsconfig sample of src/unnamed/part_000, lines 5
to 19. -/
def part000SampleEntries : List ConfigEntry :=
  [ (["compilerOptions", "lib"], .strs ["es2015"]),
    (["compilerOptions", "module"], .str "commonjs"),
    (["compilerOptions", "outDir"], .str "dist"),
    (["compilerOptions", "sourceMap"], .bool true),
    (["compilerOptions", "strict"], .bool true),
    (["compilerOptions", "target"], .str "es2015"),
    (["include"], .strs ["src"]) ]

/-- Transcription of the tsconfig sample of src/unnamed/part_001, lines 5
to 17 (same object, with the include list written on one line there). -/
def part001SampleEntries : List ConfigEntry :=
  [ (["compilerOptions", "lib"], .strs ["es2015"]),
    (["compilerOptions", "module"], .str "commonjs"),
    (["compilerOptions", "outDir"], .str "dist"),
    (["compilerOptions", "sourceMap"], .bool true),
    (["compilerOptions", "strict"], .bool true),
    (["compilerOptions", "target"], .str "es2015"),
    (["include"], .strs ["src"]) ]

/-- Transcription of the inline snippet on src/tsconfig.md line 63, which
shows setting esModuleInterop to true inside compilerOptions. -/
def esModuleInteropSnippetTsconfigMd : List ConfigEntry :=
  [ (["esModuleInterop"], .bool true) ]

/-- Transcription of the identical inline snippet on src/unnamed/part_001
line 61. -/
def esModuleInteropSnippetPart001 : List ConfigEntry :=
  [ (["esModuleInterop"], .bool true) ]

/-- Transcription of the compile-for-the-server sample of
src/unnamed/part_001, lines 96 to 103. -/
def serverConfigPart001 : List ConfigEntry :=
  [ (["compilerOptions", "target"], .str "es2015"),
    (["compilerOptions", "module"], .str "commonjs") ]

/-- Transcription of the publishing-with-declarations sample of
src/unnamed/part_001, lines 147 to 156.  Note the plural key sourceMaps as
written in the source. -/
def publishingConfigPart001 : List ConfigEntry :=
  [ (["compilerOptions", "declaration"], .bool true),
    (["compilerOptions", "module"], .str "umd"),
    (["compilerOptions", "sourceMaps"], .bool true),
    (["compilerOptions", "target"], .str "es5") ]

/-- Transcription of the package.json example of src/unnamed/part_001,
lines 189 to 199. -/
def packageJsonExamplePart001 : List ConfigEntry :=
  [ (["name"], .str "my-ts-project"),
    (["version"], .str "1.0.0"),
    (["main"], .str "dist/index.js"),
    (["types"], .str "dist/index.d.ts"),
    (["scripts", "prepublishOnly"], .str "tsc -d") ]

/-- Transcription of the step-1 sample of src/migrating-to-ts.md, lines 22
to 28. -/
def migratingStep1Config : List ConfigEntry :=
  [ (["compilerOptions", "allowJs"], .bool true) ]

/-- Transcription of the step-2a sample of src/migrating-to-ts.md, lines 43
to 50. -/
def migratingStep2aConfig : List ConfigEntry :=
  [ (["compilerOptions", "allowJs"], .bool true),
    (["compilerOptions", "checkJs"], .bool true) ]

/-- Transcription of the second step-2a sample of src/migrating-to-ts.md,
lines 63 to 71. -/
def migratingStep2aLaxConfig : List ConfigEntry :=
  [ (["compilerOptions", "allowJs"], .bool true),
    (["compilerOptions", "checkJs"], .bool true),
    (["compilerOptions", "noImplicitAny"], .bool false) ]

/-- Transcription of the step-4 sample of src/migrating-to-ts.md, lines 140
to 147. -/
def migratingStep4Config : List ConfigEntry :=
  [ (["compilerOptions", "allowJs"], .bool false),
    (["compilerOptions", "checkJs"], .bool false) ]

/-- Every configuration example appearing in the corpus, each paired with
its source document.  The remaining code fences of the corpus are
TypeScript or JavaScript language snippets or npmignore and gitignore
listings, none of which is a configuration object with fields. -/
def configExamples : List ConfigExample :=
  [ ⟨"src/tsconfig.md", tsconfigMdSampleEntries⟩,
    ⟨"src/unnamed/part_000", part000SampleEntries⟩,
    ⟨"src/unnamed/part_001", part001SampleEntries⟩,
    ⟨"src/tsconfig.md", esModuleInteropSnippetTsconfigMd⟩,
    ⟨"src/unnamed/part_001", esModuleInteropSnippetPart001⟩,
    ⟨"src/unnamed/part_001", serverConfigPart001⟩,
    ⟨"src/unnamed/part_001", publishingConfigPart001⟩,
    ⟨"src/unnamed/part_001", packageJsonExamplePart001⟩,
    ⟨"src/migrating-to-ts.md", migratingStep1Config⟩,
    ⟨"src/migrating-to-ts.md", migratingStep2aConfig⟩,
    ⟨"src/migrating-to-ts.md", migratingStep2aLaxConfig⟩,
    ⟨"src/migrating-to-ts.md", migratingStep4Config⟩,
    ⟨"src/polyfills/webpack.config.js", webpackConfigEntries⟩ ]

/-- Some configuration example of the corpus shows the field name on one of
its key paths. -/
def fieldShownInExamples (f : String) : Bool :=
  configExamples.any (fun e => fieldNamed f e.entries)

/-- Field list of the external-interface section of the specification, as
the claim enumerates it. -/
def specTsconfigFieldList : List String :=
  ["lib", "module", "outDir", "sourceMap", "strict", "target",
   "esModuleInterop", "declaration", "moduleResolution", "include",
   "references"]

/-- Flag reference of src/tsconfig.md, lines 21 to 44: each documented flag
paired with its description sentence (wrapped source lines joined with a
single space; the apostrophe is written with an escape). -/
def tsconfigMdFlagDescriptions : List (String × String) :=
  [ ("include",
     "Which folders should TSC look in to find your TypeScript files?"),
    ("lib",
     "Which APIs should TSC assume exist in the environment you\x27ll be running your code in?"),
    ("module",
     "Which module system should TSC compile your code to?"),
    ("outDir",
     "Which folder should TSC put your generated JS code in?"),
    ("strict",
     "Be as strict as possible when checking for invalid code."),
    ("target",
     "Which JavaScript version should TSC compile your code to?") ]

/-- Flag reference of src/unnamed/part_000, lines 21 to 43: the same six
entries, with the lib description written on a single source line there. -/
def part000FlagDescriptions : List (String × String) :=
  [ ("include",
     "Which folders should TSC look in to find your TypeScript files?"),
    ("lib",
     "Which APIs should TSC assume exist in the environment you\x27ll be running your code in?"),
    ("module",
     "Which module system should TSC compile your code to?"),
    ("outDir",
     "Which folder should TSC put your generated JS code in?"),
    ("strict",
     "Be as strict as possible when checking for invalid code."),
    ("target",
     "Which JavaScript version should TSC compile your code to?") ]

/-- Sentence of the module-resolution section describing the package.json
lookup, from src/tsconfig.md lines 85 to 87 and identically
src/unnamed/part_001 lines 83 to 85 (wrapped lines joined with spaces). -/
def moduleResolutionLookupSentence : String :=
  "In addition to the `main` field in `package.json` that NodeJS looks at to find the default importable file in a directory, TypeScript also looks at the TypeScript specific `types` property."

/-- Sentence of the module-resolution section describing the extension
probing order, from src/tsconfig.md lines 88 to 90 and identically
src/unnamed/part_001 lines 86 to 88 (wrapped lines joined with spaces). -/
def moduleResolutionProbeSentence : String :=
  "When importing a file with an unspecified extension, TypeScript first looks for a file with that name and a `.ts` extension, followed by `.tsx`, `.d.ts` and finally `.js`."

/-- Heading of the module-resolution section, src/tsconfig.md line 76. -/
def moduleResolutionHeadingLine : String := "## Module resolution flag"

/-- Sentence naming the references field in prose, from
src/project-references/README.md lines 19 to 20 (wrapped lines joined with
a space). -/
def projectReferencesProseLine : String :=
  "The module `ModuleA`, depends on `ModuleB`, so its `tsconfig.json` declares this `references`."

/-- Sentence naming the browserslist field, src/babel-webpack/README.md
line 8. -/
def babelWebpackBrowsersLine : String :=
  "Browser support based on the `browserslist` contents in `package.json`."

/-- Sentence naming the browserslist field, from
src/project-references/README.md lines 29 to 30 (wrapped lines joined with
a space). -/
def projectReferencesBrowsersLine : String :=
  "We\x27ve specified what browser support is required by using the `browserslist` field in `package.json`."

/-- Category of a source file of the repository.  The constructor
`applicationCode` is present so that the classification can in principle
mark a file as executable application logic; no file of this corpus is so
marked. -/
inductive FileCategory where
  | proseExplanation : FileCategory
  | languageFeatureFragment : FileCategory
  | buildConfigExample : FileCategory
  | applicationCode : FileCategory
deriving DecidableEq

/-- Inventory record for one source file: its path, its extension, its
category, whether it contains executable application logic beyond
declarative configuration, whether it defines an error taxonomy of its own,
and the module specifiers it imports at runtime. -/
structure SourceFile where
  path : String
  ext : String
  category : FileCategory
  containsApplicationLogic : Bool
  definesErrorTaxonomy : Bool
  runtimeRequires : List String
deriving DecidableEq

/-- Inventory of the nine source files of the repository, classified by
inspection of each file.  The markdown files are prose explanations with
illustrative code fences; src/polyfills/webpack.config.js is a build-tool
configuration example whose single runtime import, on line 1, is a require
of the Node builtin module named path.  The files under src/unnamed have
unknown original names and are listed under the paths they were provided
at. -/
def repoFiles : List SourceFile :=
  [ ⟨"src/migrating-to-ts.md", "md", .proseExplanation, false, false, []⟩,
    ⟨"src/tsconfig.md", "md", .proseExplanation, false, false, []⟩,
    ⟨"src/types.md", "md", .proseExplanation, false, false, []⟩,
    ⟨"src/babel-webpack/README.md", "md", .proseExplanation, false, false, []⟩,
    ⟨"src/project-references/README.md", "md", .proseExplanation, false, false, []⟩,
    ⟨"src/polyfills/webpack.config.js", "js", .buildConfigExample, false, false,
      ["path"]⟩,
    ⟨"src/unnamed/part_000", "md", .proseExplanation, false, false, []⟩,
    ⟨"src/unnamed/part_001", "md", .proseExplanation, false, false, []⟩,
    ⟨"src/unnamed/part_002", "md", .proseExplanation, false, false, []⟩ ]

/-- A file is a markdown document when its extension is md.  The files
under src/unnamed carry no extension in the paths provided, but their
content is markdown, so they are recorded with extension md in the
inventory. -/
def isMarkdownFile (f : SourceFile) : Bool := f.ext == "md"

/-- A module specifier resolves to a file of this repository exactly when
it names the path of one of the inventoried files. -/
def resolvesToRepoFile (m : String) : Bool :=
  repoFiles.any (fun f => f.path == m)

/-- One mention of a compiler diagnostic in the corpus: the document it
appears in, the quoted line or lines, and whether the mention is a quote of
user-facing TSC error text used as a teaching example. -/
structure DiagnosticMention where
  doc : String
  text : String
  isQuotedTscText : Bool
deriving DecidableEq

/-- Every mention of a TSC diagnostic message in the corpus, with the
quoted text transcribed from the source (apostrophes written with escapes,
adjacent source lines joined with a newline). -/
def diagnosticMentions : List DiagnosticMention :=
  [ ⟨"src/types.md",
     "let c = a + 10; // Error TS2571: Object is of type \x27unknown\x27.",
     true⟩,
    ⟨"src/types.md",
     "Property \x27barks\x27 does not exist on type \x27Cat\x27. ts(2339)",
     true⟩,
    ⟨"src/types.md",
     "let a: Flippable = 8; // Type \x278\x27 is not assignable to type \x27Flippable\x27. ts(2322)",
     true⟩,
    ⟨"src/types.md",
     "Interface \x27B\x27 incorrectly extends interface \x27A\x27.\n  Types of property \x27bad\x27 are incompatible.\n    Type \x27(x: string) => string\x27 is not assignable to type \x27(x: number) => string\x27.\n      Types of parameters \x27x\x27 and \x27x\x27 are incompatible.\n        Type \x27number\x27 is not assignable to type \x27string\x27.ts(2430)",
     true⟩,
    ⟨"src/types.md",
     "// ^ Object literal may only specify known properties, and \x27notTyped\x27 does not exist in type \x27Options\x27.\n// ts(2345)",
     true⟩,
    ⟨"src/unnamed/part_002",
     "let c = a + 10; // Error TS2571: Object is of type \x27unknown\x27.",
     true⟩,
    ⟨"src/unnamed/part_002",
     "let a: Flippable = 8; // Type \x278\x27 is not assignable to type \x27Flippable\x27. ts(2322)",
     true⟩ ]

/-- Semantics of the rule test regular expression of
src/polyfills/webpack.config.js line 10: a dot escaped to a literal dot
followed by ts and the end anchor, so it matches exactly the paths that end
with the three characters dot t s. -/
def tsTestMatches (p : String) : Bool := endsWithS ".ts" p

/-- Semantics of the exclude regular expression of
src/polyfills/webpack.config.js line 11: unanchored, so it matches exactly
the paths containing node_modules as a substring. -/
def nodeModulesMatches (p : String) : Bool := occursS "node_modules" p

/-- A path is handled by babel-loader exactly when the rule test matches it
and the exclude pattern does not, per the Webpack rule of
src/polyfills/webpack.config.js lines 8 to 27. -/
def handledByBabelLoader (p : String) : Bool :=
  tsTestMatches p && !(nodeModulesMatches p)

/-- A path is excluded by the rule exactly when the exclude regular
expression matches it. -/
def excludedByRule (p : String) : Bool := nodeModulesMatches p

/-- C1: the exported Webpack configuration has exactly the top-level fields
entry, devtool, mode, module, resolve and output; its single rule uses
babel-loader with the preset-env preset carrying useBuiltIns and corejs
options and with the preset-typescript preset; resolve.extensions and
output.filename and output.path are present. -/
theorem webpack_config_boundary_fields :
    (webpackConfigEntries.all (fun e =>
      [some "entry", some "devtool", some "mode", some "module",
       some "resolve", some "output"].contains e.1.head?)) = true ∧
    hasTopKey webpackConfigEntries "entry" = true ∧
    hasTopKey webpackConfigEntries "devtool" = true ∧
    hasTopKey webpackConfigEntries "mode" = true ∧
    hasTopKey webpackConfigEntries "module" = true ∧
    hasTopKey webpackConfigEntries "resolve" = true ∧
    hasTopKey webpackConfigEntries "output" = true ∧
    entryAt webpackConfigEntries ["module", "rules", "0", "use", "loader"]
      = some (.str "babel-loader") ∧
    entryAt webpackConfigEntries
        ["module", "rules", "0", "use", "options", "presets", "0", "0"]
      = some (.str "@babel/preset-env") ∧
    entryAt webpackConfigEntries
        ["module", "rules", "0", "use", "options", "presets", "0", "1", "useBuiltIns"]
      = some (.str "usage") ∧
    entryAt webpackConfigEntries
        ["module", "rules", "0", "use", "options", "presets", "0", "1", "corejs"]
      = some (.str "3.6") ∧
    entryAt webpackConfigEntries
        ["module", "rules", "0", "use", "options", "presets", "1"]
      = some (.str "@babel/preset-typescript") ∧
    entryAt webpackConfigEntries ["resolve", "extensions"]
      = some (.strs [".ts", ".js"]) ∧
    entryAt webpackConfigEntries ["output", "filename"]
      = some (.str "bundle.js") ∧
    entryAt webpackConfigEntries ["output", "path"]
      = some (.pathResolve "__dirname" "dist") := by decide

/-- C2 counterexample: moduleResolution is on the field list of the claim,
yet no configuration example of the corpus shows a field of that name, so
the claim as stated is false. -/
theorem tsconfig_moduleResolution_not_in_examples :
    "moduleResolution" ∈ specTsconfigFieldList ∧
    fieldShownInExamples "moduleResolution" = false := by decide

/-- C2 amended: the fields lib, module, outDir, sourceMap, strict, target,
esModuleInterop, declaration and include each appear in some configuration
example, while moduleResolution and references appear in no configuration
example and are covered in prose only: the module-resolution flag under its
section heading and the references field in the project-references
document. -/
theorem tsconfig_fields_shown_amended :
    (["lib", "module", "outDir", "sourceMap", "strict", "target",
      "esModuleInterop", "declaration", "include"].all
        (fun f => fieldShownInExamples f)) = true ∧
    fieldShownInExamples "moduleResolution" = false ∧
    fieldShownInExamples "references" = false ∧
    occursS "Module resolution" moduleResolutionHeadingLine = true ∧
    occursS "`references`" projectReferencesProseLine = true := by decide

/-- C3: the repository has nine source files; every one is classified as
prose explanation, language-feature fragment or build-tool configuration
example, never as application code; none contains executable application
logic beyond declarative configuration; and every file is either the
Webpack build configuration or a markdown document. -/
theorem corpus_files_demonstrative_only :
    repoFiles.length = 9 ∧
    (repoFiles.all (fun f =>
      !(f.category == FileCategory.applicationCode))) = true ∧
    (repoFiles.all (fun f => !f.containsApplicationLogic)) = true ∧
    (repoFiles.all (fun f =>
      f.category == FileCategory.buildConfigExample || f.ext == "md")) = true := by
  decide

/-- C4 counterexample: the repository contains
src/polyfills/webpack.config.js, which is not a markdown document, so the
claim that every file is markdown is false. -/
theorem repo_files_not_all_markdown :
    (repoFiles.any (fun f =>
      f.path == "src/polyfills/webpack.config.js" && !(isMarkdownFile f))) = true := by
  decide

/-- C4 amended: every file other than src/polyfills/webpack.config.js is a
markdown document, and no file is consumed at runtime by another file of
the repository: the only runtime import in the corpus names the Node
builtin module path, which resolves to no repository file. -/
theorem repo_files_markdown_except_webpack :
    (repoFiles.all (fun f =>
      f.path == "src/polyfills/webpack.config.js" || isMarkdownFile f)) = true ∧
    (repoFiles.all (fun f =>
      f.runtimeRequires.all (fun m => !(resolvesToRepoFile m)))) = true := by
  decide

/-- C5: the corpus references each of the package.json fields main, types
and scripts.prepublishOnly in the publishing example of
src/unnamed/part_001, and the browserslist field in the prose of
src/babel-webpack/README.md and src/project-references/README.md. -/
theorem package_json_fields_referenced :
    fieldNamed "main" packageJsonExamplePart001 = true ∧
    fieldNamed "types" packageJsonExamplePart001 = true ∧
    entryAt packageJsonExamplePart001 ["scripts", "prepublishOnly"]
      = some (.str "tsc -d") ∧
    occursS "`browserslist`" babelWebpackBrowsersLine = true ∧
    occursS "`browserslist`" projectReferencesBrowsersLine = true := by decide

set_option maxRecDepth 8000 in
/-- C6: in the module-resolution prose, the probing extensions appear in
the order dot-ts, then dot-tsx, then dot-d-dot-ts, and finally dot-js, with
the words first and finally marking the order, and the package.json lookup
sentence names both the main and the types fields. -/
theorem module_resolution_probe_order_and_lookup :
    occursBefore "`.ts`" "`.tsx`" moduleResolutionProbeSentence = true ∧
    occursBefore "`.tsx`" "`.d.ts`" moduleResolutionProbeSentence = true ∧
    occursBefore "`.d.ts`" "`.js`" moduleResolutionProbeSentence = true ∧
    occursBefore "first" "`.ts`" moduleResolutionProbeSentence = true ∧
    occursBefore "finally" "`.js`" moduleResolutionProbeSentence = true ∧
    occursS "`main`" moduleResolutionLookupSentence = true ∧
    occursS "`types`" moduleResolutionLookupSentence = true ∧
    occursS "`package.json`" moduleResolutionLookupSentence = true := by decide

/-- C7: both copies of the tsconfig option reference enumerate exactly the
six flags include, lib, module, outDir, strict and target, each paired with
a nonempty description. -/
theorem tsconfig_flag_reference_exactly_six :
    (tsconfigMdFlagDescriptions.map Prod.fst)
      = ["include", "lib", "module", "outDir", "strict", "target"] ∧
    (part000FlagDescriptions.map Prod.fst)
      = ["include", "lib", "module", "outDir", "strict", "target"] ∧
    (["lib", "module", "target", "strict", "outDir", "include"].all
      (fun f => (tsconfigMdFlagDescriptions.map Prod.fst).contains f)) = true ∧
    tsconfigMdFlagDescriptions.length = 6 ∧
    (tsconfigMdFlagDescriptions.all (fun e => !(e.2 == ""))) = true ∧
    (part000FlagDescriptions.all (fun e => !(e.2 == ""))) = true := by decide

set_option maxRecDepth 8000 in
/-- C8: every diagnostic mention of the corpus is a quote of user-facing
TSC error text used as a teaching example, among them the
object-is-of-type-unknown message and the excess-property-check message
numbered ts 2345, and no file of the repository defines an error taxonomy
of its own. -/
theorem diagnostics_quoted_only :
    (diagnosticMentions.all (fun m => m.isQuotedTscText)) = true ∧
    (diagnosticMentions.any (fun m =>
      occursS "Object is of type \x27unknown\x27" m.text)) = true ∧
    (diagnosticMentions.any (fun m =>
      occursS "Object literal may only specify known properties" m.text &&
      occursS "ts(2345)" m.text)) = true ∧
    (repoFiles.all (fun f => !f.definesErrorTaxonomy)) = true := by decide

/-- C9 counterexample: the path dot-slash-src-slash-index-dot-js is neither
handled by babel-loader nor excluded by the rule, so the claim that for
every input path exactly one of the two holds is false. -/
theorem webpack_rule_neither_handled_nor_excluded :
    ¬(handledByBabelLoader "./src/index.js" = true ∨
      excludedByRule "./src/index.js" = true) := by decide

/-- C9 amended: a path handled by babel-loader always matches the rule test
and never matches the exclude pattern, and no path is both handled and
excluded; a path matching neither pattern is simply not processed by the
rule. -/
theorem webpack_rule_handled_excluded_exclusive (p : String) :
    (handledByBabelLoader p = true →
      tsTestMatches p = true ∧ nodeModulesMatches p = false) ∧
    ¬(handledByBabelLoader p = true ∧ excludedByRule p = true) := by
  unfold handledByBabelLoader excludedByRule
  cases h1 : tsTestMatches p <;> cases h2 : nodeModulesMatches p <;> simp [h1, h2]

/-- Witness for the amended C9 theorem at the concrete path
dot-slash-src-slash-index-dot-ts. -/
theorem webpack_rule_handled_excluded_exclusive_witness :
    (handledByBabelLoader "./src/index.ts" = true →
      tsTestMatches "./src/index.ts" = true ∧
      nodeModulesMatches "./src/index.ts" = false) ∧
    ¬(handledByBabelLoader "./src/index.ts" = true ∧
      excludedByRule "./src/index.ts" = true) :=
  webpack_rule_handled_excluded_exclusive "./src/index.ts"

/-- C10: the three copies of the basic tsconfig sample denote the same
configuration object, whose compilerOptions keys are lib, module, outDir,
sourceMap, strict and target and whose include list holds exactly src. -/
theorem tsconfig_sample_three_copies_equal :
    part000SampleEntries = tsconfigMdSampleEntries ∧
    part001SampleEntries = tsconfigMdSampleEntries ∧
    (tsconfigMdSampleEntries.map Prod.fst)
      = [["compilerOptions", "lib"], ["compilerOptions", "module"],
         ["compilerOptions", "outDir"], ["compilerOptions", "sourceMap"],
         ["compilerOptions", "strict"], ["compilerOptions", "target"],
         ["include"]] ∧
    entryAt tsconfigMdSampleEntries ["include"] = some (.strs ["src"]) := by
  decide
